import Mathlib

/-!
Shallow embedding of the SQL query analyzer (`sql_analyzer.py`, class
`SQLAnalyzer`).  Strings are modelled as `List Char`; Python string
operations (`strip`, `upper`, `split`, substring test, …) are translated
char-by-char.  The external tokenizer (`sqlparse`) is abstracted as a
function from the query string to either a token list or an error message;
the analyzer itself is a total Lean function mirroring `analyze_query`.
-/

namespace SQLCheck

abbrev Str := List Char

/-- Python whitespace characters recognised by `str.strip()` / `str.split()`
(ASCII fragment). -/
def isPySpace (c : Char) : Bool :=
  c = ' ' || c = '\t' || c = '\n' || c = '\r' || c = '\x0b' || c = '\x0c'

/-- Python `str.upper()` (ASCII fragment, as used on SQL text). -/
def pyUpper (s : Str) : Str := s.map Char.toUpper

/-- Python `str.strip()` with no argument: drop leading and trailing
whitespace. -/
def pyStrip (s : Str) : Str :=
  ((s.dropWhile isPySpace).reverse.dropWhile isPySpace).reverse

/-- Python `str.strip(chars)`: drop leading and trailing characters drawn
from `cs`. -/
def pyStripChars (cs : Str) (s : Str) : Str :=
  ((s.dropWhile cs.contains).reverse.dropWhile cs.contains).reverse

/-- Python `str.split()` with no argument: split on whitespace runs,
discarding empty pieces. -/
def pySplitWs (s : Str) : List Str :=
  (s.splitOnP isPySpace).filter (· ≠ [])

/-- Python `str.split(sep)` for a one-character separator. -/
def pySplitOn (sep : Char) (s : Str) : List Str := s.splitOn sep

/-- Python `str.isdigit()` (ASCII fragment). -/
def pyIsDigit (s : Str) : Bool := !s.isEmpty && s.all Char.isDigit

/-- Python substring test `p in s`. -/
def listContains (s p : Str) : Bool :=
  match s with
  | [] => p.isEmpty
  | _ :: t => p.isPrefixOf s || listContains t p

/-- Insertion-ordered set insertion, modelling `set.add` while keeping a
deterministic order (membership and cardinality agree with Python's set). -/
def addSet (l : List Str) (x : Str) : List Str := if x ∈ l then l else l ++ [x]

/-- Token type tags relevant to the analyzer.  `sqlparse` distinguishes plain
`Keyword` from `Keyword.DML` / `Keyword.DDL`; the analyzer's identity tests
(`ttype is Keyword`, `ttype is Name`, `ttype in (Name, None)`) see them as
different, so the embedding keeps them distinct. -/
inductive TType where
  | kw | dml | ddl | name | ws | punct | lit | noneT
deriving DecidableEq, Repr

/-- One lexical token: a type tag and its raw text. -/
structure Tok where
  ttype : TType
  value : Str
deriving DecidableEq, Repr

/-- `self.crud_keywords`: the query-type table, in declaration order (each
type is keyed by the single keyword of the same spelling). -/
def crud_keywords : List Str :=
  ["SELECT", "INSERT", "UPDATE", "DELETE", "CREATE", "DROP", "ALTER",
   "MERGE", "UPSERT"].map String.toList

/-- `self.join_keywords`, in declaration order. -/
def join_keywords : List Str :=
  ["JOIN", "INNER JOIN", "LEFT JOIN", "RIGHT JOIN", "FULL JOIN",
   "CROSS JOIN", "NATURAL JOIN", "LEFT OUTER JOIN", "RIGHT OUTER JOIN",
   "FULL OUTER JOIN"].map String.toList

/-- `_determine_query_type`: prefix-match the uppercased, stripped query
against the CRUD keywords in declaration order, then `WITH` → CTE, else
UNKNOWN. -/
def determine_query_type (q : Str) : Str :=
  let qU := pyStrip (pyUpper q)
  match crud_keywords.find? (fun k => k.isPrefixOf qU) with
  | some k => k
  | none => if ("WITH".toList).isPrefixOf qU then "CTE".toList else "UNKNOWN".toList

/-- Clause keywords that reset the FROM/JOIN capture flags in
`_extract_tables`. -/
def resetKws : List Str :=
  ["WHERE", "GROUP", "ORDER", "HAVING", "LIMIT", "UNION", "SELECT"].map String.toList

/-- Words excluded by the outer guard of the capture block in
`_extract_tables`. -/
def stopWords : List Str := ["AS", "ON", "WHERE", "AND", "OR"].map String.toList

/-- The inner reserved-word list of `_extract_tables`. -/
def tblReserved : List Str :=
  ["AS", "ON", "WHERE", "AND", "OR", "SELECT", "FROM", "JOIN"].map String.toList

/-- The cleaned-name validation of `_extract_tables`, with Python's
`and`/`or` precedence kept exactly: the `or` arm
`len(cleaned_name.split('.')) <= 2` covers the whole preceding conjunction. -/
def tblNameOk (c : Str) : Bool :=
  (!c.isEmpty && !(tblReserved.contains (pyUpper c)) && c.length > 0 &&
     !pyIsDigit c && !c.contains '.')
  || (pySplitOn '.' c).length ≤ 2

/-- Drop a `schema.` prefix: `cleaned_name.split('.')[-1]`. -/
def schemaSuffix (c : Str) : Str :=
  if c.contains '.' then (pySplitOn '.' c).getLastD [] else c

/-- State of the `_extract_tables` scan. -/
structure TblState where
  inFrom : Bool
  inJoin : Bool
  nextIsTable : Bool
  tables : List Str
deriving Repr

/-- One step of the `_extract_tables` loop. -/
def tblStep (st : TblState) (t : Tok) : TblState :=
  let tv := pyStrip (pyUpper t.value)
  if t.ttype = .kw ∧ tv ∈ resetKws then
    { st with inFrom := false, inJoin := false, nextIsTable := false }
  else if t.ttype = .kw ∧ tv = "FROM".toList then
    { st with inFrom := true, nextIsTable := true }
  else if t.ttype = .kw ∧ listContains tv ("JOIN".toList) then
    { st with inJoin := true, nextIsTable := true }
  else if t.ttype = .kw ∧ tv = "ON".toList then
    { st with nextIsTable := false }
  else
    let st1 :=
      if (st.inFrom || st.inJoin) ∧ st.nextIsTable ∧
         (t.ttype = .name ∨ t.ttype = .noneT) ∧ tv ∉ stopWords then
        let cleaned := pyStrip (pyStripChars ("`\"[](),".toList) t.value)
        if tblNameOk cleaned then
          { st with tables := addSet st.tables (schemaSuffix cleaned),
                    nextIsTable := false }
        else st
      else st
    if t.ttype = .kw ∧ tv = "AS".toList then { st1 with nextIsTable := false }
    else st1

/-- `_extract_tables`: run the state machine over the flattened tokens. -/
def extract_tables (ts : List Tok) : List Str :=
  (ts.foldl tblStep ⟨false, false, false, []⟩).tables

/-- External table metadata: table name → list of field names (keys are all
the analyzer consults). -/
abbrev TableMetadata := List (Str × List Str)

/-- The keyword list of `_is_likely_table_name`. -/
def likelyKeywords : List Str :=
  ["SELECT", "FROM", "WHERE", "JOIN", "ON", "AS", "AND", "OR", "IN", "EXISTS",
   "GROUP", "ORDER", "BY", "HAVING", "LIMIT", "OFFSET", "UNION", "DISTINCT",
   "COUNT", "SUM", "AVG", "MAX", "MIN", "CASE", "WHEN", "THEN", "ELSE",
   "END"].map String.toList

/-- `_is_likely_table_name`. -/
def is_likely_table_name (meta : TableMetadata) (n : Str) : Bool :=
  if n.isEmpty || n.length < 2 then false
  else if likelyKeywords.contains (pyUpper n) then false
  else if !meta.isEmpty then (meta.map Prod.fst).contains n
  else !(n.contains '.' && (pySplitOn '.' n).length > 2)

/-- Words excluded from column candidates in `_extract_columns`. -/
def colStop : List Str :=
  ["SELECT", "FROM", "WHERE", "JOIN", "ON", "AS"].map String.toList

/-- `_extract_columns`: every `Name` token, stripped of quote/bracket
characters, that is neither a likely table name nor a stop word. -/
def extract_columns (meta : TableMetadata) (ts : List Tok) : List Str :=
  ts.foldl (fun acc t =>
    if t.ttype = .name then
      let v := pyStripChars ("`\"[]".toList) t.value
      if !v.isEmpty ∧ !is_likely_table_name meta v ∧ pyUpper v ∉ colStop then
        addSet acc v
      else acc
    else acc) []

/-- `_detect_joins`: substring test against the join keywords. -/
def detect_joins (q : Str) : Bool :=
  join_keywords.any (fun p => listContains (pyUpper q) p)

/-- `_extract_join_types`: all join keywords occurring as substrings, in
declaration order, each once. -/
def extract_join_types (q : Str) : List Str :=
  join_keywords.filter (fun p => listContains (pyUpper q) p)

/-! Temporary-table and CTE detection (`_extract_temp_tables`)

The four regex patterns and the CTE pattern are implemented as direct
matchers.  Each matcher, applied at a position, returns the suffix after the
match (i.e. the text from `match.end()` on); alternation is tried left to
right and the `\s+`, `\s*`, `\w+` quantifiers take the maximal run, which
coincides with the backtracking regex semantics because the adjacent
pattern pieces use disjoint character classes. -/

/-- Case-insensitive literal match at the head of the text; returns the
remaining suffix. -/
def ciLit (pat s : Str) : Option Str :=
  match pat, s with
  | [], rest => some rest
  | _ :: _, [] => none
  | p :: ps, c :: cs => if p.toUpper = c.toUpper then ciLit ps cs else none

/-- `\s+`: at least one whitespace character. -/
def wsPlus (s : Str) : Option Str :=
  match s with
  | c :: _ => if isPySpace c then some (s.dropWhile isPySpace) else none
  | [] => none

/-- `\s*`. -/
def wsStar (s : Str) : Str := s.dropWhile isPySpace

/-- A regex word character `\w` (ASCII fragment). -/
def isWordChar (c : Char) : Bool := c.isAlphanum || c = '_'

/-- `\w+`: at least one word character; returns the word and the suffix. -/
def wordPlus (s : Str) : Option (Str × Str) :=
  let w := s.takeWhile isWordChar
  if w.isEmpty then none else some (w, s.drop w.length)

/-- Pattern `CREATE\s+(?:TEMPORARY|TEMP)\s+TABLE` (case-insensitive). -/
def matchP1 (s : Str) : Option Str :=
  (ciLit ("CREATE".toList) s).bind fun r1 =>
  (wsPlus r1).bind fun r2 =>
    let tail := fun (r3 : Str) =>
      (wsPlus r3).bind fun r4 => ciLit ("TABLE".toList) r4
    match (ciLit ("TEMPORARY".toList) r2).bind tail with
    | some r => some r
    | none => (ciLit ("TEMP".toList) r2).bind tail

/-- Pattern `CREATE\s+TABLE\s+#\w+`. -/
def matchP2 (s : Str) : Option Str :=
  (ciLit ("CREATE".toList) s).bind fun r1 =>
  (wsPlus r1).bind fun r2 =>
  (ciLit ("TABLE".toList) r2).bind fun r3 =>
  (wsPlus r3).bind fun r4 =>
  (ciLit ("#".toList) r4).bind fun r5 =>
  (wordPlus r5).map Prod.snd

/-- Pattern `WITH\s+\w+\s+AS\s*\(`. -/
def matchP3 (s : Str) : Option Str :=
  (ciLit ("WITH".toList) s).bind fun r1 =>
  (wsPlus r1).bind fun r2 =>
  (wordPlus r2).bind fun wr =>
  (wsPlus wr.2).bind fun r4 =>
  (ciLit ("AS".toList) r4).bind fun r5 =>
  ciLit ("(".toList) (wsStar r5)

/-- Pattern `INTO\s+#\w+`. -/
def matchP4 (s : Str) : Option Str :=
  (ciLit ("INTO".toList) s).bind fun r1 =>
  (wsPlus r1).bind fun r2 =>
  (ciLit ("#".toList) r2).bind fun r3 =>
  (wordPlus r3).map Prod.snd

/-- CTE pattern `WITH\s+(\w+)\s+AS\s*\(` with its capture group. -/
def matchCTE (s : Str) : Option (Str × Str) :=
  (ciLit ("WITH".toList) s).bind fun r1 =>
  (wsPlus r1).bind fun r2 =>
  (wordPlus r2).bind fun wr =>
  (wsPlus wr.2).bind fun r4 =>
  (ciLit ("AS".toList) r4).bind fun r5 =>
  (ciLit ("(".toList) (wsStar r5)).map fun r6 => (wr.1, r6)

/-- `re.finditer` semantics: scan left to right, emit the suffix after each
(non-overlapping, leftmost) match, resume at the match end.  The fuel is the
text length; every pattern here consumes at least one character. -/
def reFindRests (m : Str → Option Str) : Nat → Str → List Str
  | 0, _ => []
  | _ + 1, [] => []
  | fuel + 1, s@(_ :: tail) =>
    match m s with
    | some r =>
      if r.length < s.length then r :: reFindRests m fuel r
      else reFindRests m fuel tail
    | none => reFindRests m fuel tail

/-- `re.finditer` for the CTE pattern, emitting the capture groups. -/
def reFindCTE : Nat → Str → List Str
  | 0, _ => []
  | _ + 1, [] => []
  | fuel + 1, s@(_ :: tail) =>
    match matchCTE s with
    | some (g, r) =>
      if r.length < s.length then g :: reFindCTE fuel r
      else reFindCTE fuel tail
    | none => reFindCTE fuel tail

/-- The name harvested after a pattern match: first whitespace-delimited
token of the remaining text, stripped of `();,` on both ends (Python
`strip`); `none` when the remaining text has no token. -/
def nameAfter (rest : Str) : Option Str :=
  match pySplitWs (pyStrip rest) with
  | [] => none
  | tn :: _ => some (pyStripChars ("();,".toList) tn)

/-- `_extract_temp_tables`: run the four patterns in order, harvest the
token after each match, then append the CTE capture groups, and
deduplicate (`list(set(...))`). -/
def extract_temp_tables (q : Str) : List Str :=
  let pats := [matchP1, matchP2, matchP3, matchP4]
  let names1 :=
    (pats.map fun m => (reFindRests m (q.length + 1) q).filterMap nameAfter).flatten
  (names1 ++ reFindCTE (q.length + 1) q).dedup

/-- The keyword list of `_extract_operations`. -/
def opsKeywords : List Str :=
  ["INSERT", "UPDATE", "DELETE", "SELECT", "CREATE", "DROP", "ALTER"].map String.toList

/-- `_extract_operations`: uppercased values of plain `Keyword` tokens in
the operation list, deduplicated. -/
def extract_operations (ts : List Tok) : List Str :=
  (ts.foldl (fun acc t =>
    if t.ttype = .kw ∧ pyUpper t.value ∈ opsKeywords then acc ++ [pyUpper t.value]
    else acc) []).dedup

/-- One step of `_count_subqueries`: parenthesis-depth tracking plus a
count of `SELECT` keyword tokens seen at positive depth. -/
def subqStep (dc : ℤ × ℕ) (t : Tok) : ℤ × ℕ :=
  if t.value = "(".toList then (dc.1 + 1, dc.2)
  else if t.value = ")".toList then (dc.1 - 1, dc.2)
  else if t.ttype = .kw ∧ pyUpper t.value = "SELECT".toList ∧ 0 < dc.1 then
    (dc.1, dc.2 + 1)
  else dc

/-- `_count_subqueries`. -/
def count_subqueries (ts : List Tok) : ℕ := (ts.foldl subqStep (0, 0)).2

/-- The function allow-list of `_extract_functions`. -/
def funcKeywords : List Str :=
  ["COUNT", "SUM", "AVG", "MAX", "MIN", "COALESCE", "ISNULL", "CASE",
   "CAST", "CONVERT", "SUBSTRING", "CONCAT", "UPPER", "LOWER", "TRIM"].map String.toList

/-- `_extract_functions`: uppercased `Name` tokens from the allow-list, as a
set. -/
def extract_functions (ts : List Tok) : List Str :=
  ts.foldl (fun acc t =>
    if t.ttype = .name ∧ pyUpper t.value ∈ funcKeywords then addSet acc (pyUpper t.value)
    else acc) []

/-- Clause keywords that close a WHERE region in `_extract_conditions`. -/
def condBoundary : List Str := ["GROUP", "ORDER", "HAVING", "LIMIT"].map String.toList

/-- State of the `_extract_conditions` scan: inside-WHERE flag, current
segment (token texts), finished segments. -/
structure CondState where
  inWhere : Bool
  cur : List Str
  acc : List Str

/-- One step of the `_extract_conditions` loop. -/
def condStep (st : CondState) (t : Tok) : CondState :=
  if t.ttype = .kw ∧ pyUpper t.value = "WHERE".toList then
    { st with inWhere := true }
  else if t.ttype = .kw ∧ pyUpper t.value ∈ condBoundary then
    { inWhere := false, cur := [],
      acc := if st.cur ≠ [] ∧ st.inWhere
             then st.acc ++ [pyStrip (List.intercalate (" ".toList) st.cur)]
             else st.acc }
  else if st.inWhere ∧ pyStrip t.value ≠ [] then { st with cur := st.cur ++ [t.value] }
  else st

/-- `_extract_conditions`. -/
def extract_conditions (ts : List Tok) : List Str :=
  let st := ts.foldl condStep ⟨false, [], []⟩
  if st.cur ≠ [] ∧ st.inWhere
  then st.acc ++ [pyStrip (List.intercalate (" ".toList) st.cur)]
  else st.acc

/-! Scoring, diagnostics and the orchestrator. -/

/-- Python `int()` on a number: truncation toward zero.  On a rational in
lowest terms with positive denominator this is the T-division of the
numerator by the denominator. -/
def pyTrunc (q : ℚ) : ℤ := q.num.tdiv q.den

/-- Detail sub-record produced by `_analyze_joins_detailed`. -/
structure JoinDetails where
  join_count : ℕ
  join_tables : List Str
  join_conditions : List Str
  cartesian_product_risk : Bool
deriving DecidableEq, Repr

/-- Sub-record produced by `_analyze_column_usage`. -/
structure ColumnUsage where
  total_columns : ℕ
  unique_columns : ℕ
  repeated_columns : List Str
  metadata_matched : ℕ
deriving DecidableEq, Repr

/-- The analysis result record.  The fields are exactly the keys the Python
code ever places in a result dictionary; `join_details` and `column_usage`
are `none` when their keys are absent.  `error_message` exists to express
claims about such a key: the code never writes it, so it is `none` in every
result the analyzer builds. -/
structure AnalysisResult where
  query_id : Str
  original_query : Str
  query_type : Str
  tables : List Str
  columns : List Str
  has_joins : Bool
  join_types : List Str
  temp_tables : List Str
  operations : List Str
  complexity_score : ℤ
  change_areas : List Str
  subqueries : ℕ
  functions : List Str
  conditions : List Str
  join_details : Option JoinDetails
  column_usage : Option ColumnUsage
  error_message : Option Str
deriving DecidableEq, Repr

/-- `_calculate_complexity`: float-accumulated weighted sum, truncated by
`int()` at the very end.  The accumulation is exact in rationals (every term
is a multiple of one half). -/
def calculate_complexity (r : AnalysisResult) : ℤ :=
  let base : ℚ :=
    if r.query_type = "SELECT".toList then 1
    else if r.query_type ∈ (["INSERT", "UPDATE", "DELETE"].map String.toList) then 2
    else if r.query_type ∈ (["CREATE", "ALTER", "DROP"].map String.toList) then 3
    else 0
  pyTrunc (base + r.tables.length + (r.columns.length : ℚ) * (1 / 2)
    + r.join_types.length * 2 + r.temp_tables.length * 3
    + (r.subqueries : ℚ) * 4 + r.functions.length + r.conditions.length)

/-- The fixed diagnostic messages of `_identify_change_areas`, in
declaration order. -/
def msgManyTables : Str :=
  "Query involves many tables - consider breaking into smaller queries".toList

def msgComplexJoins : Str :=
  "Complex join structure - review for optimization opportunities".toList

def msgSubqueries : Str :=
  "Multiple subqueries detected - consider using CTEs for better readability".toList

def msgHighComplexity : Str :=
  "High complexity score - consider refactoring for maintainability".toList

def msgTempTables : Str :=
  "Temporary tables used - ensure proper cleanup and consider alternatives".toList

def msgNoIssues : Str := "No obvious issues detected".toList

/-- An apostrophe character (used inside the missing-table message). -/
def quoteChar : Char := Char.ofNat 39

/-- The per-table metadata-mismatch message. -/
def msgMissing (tb : Str) : Str :=
  "Table ".toList ++ [quoteChar] ++ tb ++ [quoteChar] ++
    " not found in provided metadata".toList

/-- The fixed rules of `_identify_change_areas`, in declaration order:
threshold rules first, then one message per table missing from the
metadata (when metadata was supplied), in table order. -/
def change_area_rules (meta : TableMetadata) (r : AnalysisResult) : List Str :=
  (if 5 < r.tables.length then [msgManyTables] else []) ++
  (if 3 < r.join_types.length then [msgComplexJoins] else []) ++
  (if 2 < r.subqueries then [msgSubqueries] else []) ++
  (if 20 < r.complexity_score then [msgHighComplexity] else []) ++
  (if r.temp_tables ≠ [] then [msgTempTables] else []) ++
  (if meta ≠ [] then
     (r.tables.filter fun tb => !((meta.map Prod.fst).contains tb)).map msgMissing
   else [])

/-- `_identify_change_areas`: the rule list, or the sentinel when no rule
fired. -/
def identify_change_areas (meta : TableMetadata) (r : AnalysisResult) : List Str :=
  if change_area_rules meta r = [] then [msgNoIssues] else change_area_rules meta r

/-- `_analyze_joins_detailed` (the stub record). -/
def analyze_joins_detailed (q : Str) : JoinDetails :=
  { join_count := (extract_join_types q).length
    join_tables := []
    join_conditions := []
    cartesian_product_risk := false }

/-- `_analyze_column_usage`. -/
def analyze_column_usage (meta : TableMetadata) (r : AnalysisResult) : ColumnUsage :=
  { total_columns := r.columns.length
    unique_columns := r.columns.dedup.length
    repeated_columns := r.columns.filter fun c => 1 < r.columns.count c
    metadata_matched := (meta.map fun p => r.columns.countP (p.2.contains ·)).sum }

/-- The analyzer configuration flags. -/
structure AnalysisConfig where
  include_temp_tables : Bool
  detailed_join_analysis : Bool
  column_usage_tracking : Bool
deriving DecidableEq, Repr

/-- Python `query_id or 'unknown'`. -/
def defaultedId (id : Option Str) : Str :=
  match id with
  | some s => if s = [] then "unknown".toList else s
  | none => "unknown".toList

/-- `_create_empty_result`. -/
def empty_result (id : Option Str) : AnalysisResult :=
  { query_id := defaultedId id, original_query := [], query_type := "EMPTY".toList,
    tables := [], columns := [], has_joins := false, join_types := [],
    temp_tables := [], operations := [], complexity_score := 0,
    change_areas := ["Query is empty or invalid".toList], subqueries := 0,
    functions := [], conditions := [], join_details := none,
    column_usage := none, error_message := none }

/-- `_create_error_result`: the failure message goes into `change_areas`
(after the literal prefix `Parsing error: `); no `error_message` key is
written. -/
def error_result (id : Option Str) (err : Str) (q : Str) : AnalysisResult :=
  { query_id := defaultedId id, original_query := q, query_type := "ERROR".toList,
    tables := [], columns := [], has_joins := false, join_types := [],
    temp_tables := [], operations := [], complexity_score := 0,
    change_areas := ["Parsing error: ".toList ++ err], subqueries := 0,
    functions := [], conditions := [], join_details := none,
    column_usage := none, error_message := none }

/-- The result record as first initialised on the successful path of
`analyze_query` (complexity score and change areas still to be filled in). -/
def base_result (meta : TableMetadata) (cfg : AnalysisConfig) (q : Str)
    (ts : List Tok) (id : Option Str) : AnalysisResult :=
  { query_id := defaultedId id
    original_query := pyStrip q
    query_type := determine_query_type q
    tables := extract_tables ts
    columns := extract_columns meta ts
    has_joins := detect_joins q
    join_types := extract_join_types q
    temp_tables := if cfg.include_temp_tables then extract_temp_tables q else []
    operations := extract_operations ts
    complexity_score := 0
    change_areas := []
    subqueries := count_subqueries ts
    functions := extract_functions ts
    conditions := extract_conditions ts
    join_details := none
    column_usage := none
    error_message := none }

/-- The successful-path record after the complexity score is filled in. -/
def scored_result (meta : TableMetadata) (cfg : AnalysisConfig) (q : Str)
    (ts : List Tok) (id : Option Str) : AnalysisResult :=
  { base_result meta cfg q ts id with
    complexity_score := calculate_complexity (base_result meta cfg q ts id) }

/-- The successful-path result before the optional sub-records are
attached: feature extraction, then the complexity score, then the change
areas (computed, as in the source, on the record that already carries the
score). -/
def ok_result (meta : TableMetadata) (cfg : AnalysisConfig) (q : Str)
    (ts : List Tok) (id : Option Str) : AnalysisResult :=
  { scored_result meta cfg q ts id with
    change_areas := identify_change_areas meta (scored_result meta cfg q ts id) }

/-- The final step of the successful path: attach the optional join-detail
and column-usage sub-records according to the configuration flags. -/
def attach_extras (meta : TableMetadata) (cfg : AnalysisConfig) (q : Str)
    (r2 : AnalysisResult) : AnalysisResult :=
  let r3 :=
    if cfg.detailed_join_analysis && r2.has_joins then
      { r2 with join_details := some (analyze_joins_detailed q) }
    else r2
  if cfg.column_usage_tracking then
    { r3 with column_usage := some (analyze_column_usage meta r3) }
  else r3

/-- The abstracted external tokenizer (`sqlparse.parse(query)[0].flatten()`):
either the flattened token list or the message of a raised exception. -/
abbrev Tokenizer := Str → Except Str (List Tok)

/-- `analyze_query`: empty guard, tokenize, extract, score, diagnose, and
attach the optional sub-records; a tokenizer failure is converted into the
error result. -/
def analyze_query (tokenize : Tokenizer) (meta : TableMetadata)
    (cfg : AnalysisConfig) (q : Str) (id : Option Str) : AnalysisResult :=
  if pyStrip q = [] then empty_result id
  else
    match tokenize q with
    | .error e => error_result id e q
    | .ok ts => attach_extras meta cfg q (ok_result meta cfg q ts id)

/-- The default configuration (`include_temp_tables = detailed_join_analysis
= column_usage_tracking = True`). -/
def cfgDefault : AnalysisConfig := ⟨true, true, true⟩

/-- The `sqlparse` token stream of the query `SELECT a FROM t`: a DML
keyword, a name, a plain keyword and a name, separated by whitespace
tokens (supplied to the analyzer through the abstract tokenizer). -/
def toksSelectAFromT : List Tok :=
  [⟨.dml, "SELECT".toList⟩, ⟨.ws, " ".toList⟩, ⟨.name, "a".toList⟩,
   ⟨.ws, " ".toList⟩, ⟨.kw, "FROM".toList⟩, ⟨.ws, " ".toList⟩,
   ⟨.name, "t".toList⟩]

/-- The depth contribution of one token: `+1` for `(`, `-1` for `)`. -/
def depthDelta (t : Tok) : ℤ :=
  if t.value = "(".toList then 1 else if t.value = ")".toList then -1 else 0

/-- The parenthesis depth accumulated strictly before position `i`. -/
def prefixDepth (ts : List Tok) (i : ℕ) : ℤ :=
  ((ts.take i).map depthDelta).sum

/-- A `SELECT` keyword token (plain `Keyword` type, uppercased value
`SELECT`). -/
def IsSelectTok (t : Tok) : Prop :=
  t.ttype = .kw ∧ pyUpper t.value = "SELECT".toList

instance (t : Tok) : Decidable ( IsSelectTok t) := by
  unfold IsSelectTok
  infer_instance

/-- The number of `SELECT` keyword tokens sitting at strictly positive
parenthesis depth — the specification's description of the subquery
count. -/
def spec_subquery_count (ts : List Tok) : ℕ :=
  (List.range ts.length).countP fun i =>
    decide ( IsSelectTok (ts.getD i ⟨.ws, []⟩)) && decide (0 < prefixDepth ts i)

/-- The base score of the complexity formula as the specification states
it: 1 for SELECT, 2 for INSERT/UPDATE/DELETE, 3 for CREATE/ALTER/DROP, 0
otherwise. -/
def baseScore (qt : Str) : ℕ :=
  if qt = "SELECT".toList then 1
  else if qt ∈ (["INSERT", "UPDATE", "DELETE"].map String.toList) then 2
  else if qt ∈ (["CREATE", "ALTER", "DROP"].map String.toList) then 3
  else 0

/-! Branch equations and projection lemmas for `analyze_query`. -/

theorem analyze_eq_empty (tokenize : Tokenizer) (meta : TableMetadata)
    (cfg : AnalysisConfig) (q : Str) (id : Option Str) (hq : pyStrip q = []) :
    analyze_query tokenize meta cfg q id = empty_result id := by
  unfold analyze_query
  rw [if_pos hq]

theorem analyze_eq_error (tokenize : Tokenizer) (meta : TableMetadata)
    (cfg : AnalysisConfig) (q : Str) (id : Option Str) (e : Str)
    (hq : pyStrip q ≠ []) (ht : tokenize q = Except.error e) :
    analyze_query tokenize meta cfg q id = error_result id e q := by
  unfold analyze_query
  rw [if_neg hq, ht]

theorem analyze_eq_ok (tokenize : Tokenizer) (meta : TableMetadata)
    (cfg : AnalysisConfig) (q : Str) (id : Option Str) (ts : List Tok)
    (hq : pyStrip q ≠ []) (ht : tokenize q = Except.ok ts) :
    analyze_query tokenize meta cfg q id =
      attach_extras meta cfg q (ok_result meta cfg q ts id) := by
  unfold analyze_query
  rw [if_neg hq, ht]

@[simp] theorem attach_extras_query_type (meta : TableMetadata) (cfg : AnalysisConfig)
    (q : Str) (r : AnalysisResult) :
    (attach_extras meta cfg q r).query_type = r.query_type := by
  unfold attach_extras
  split <;> split <;> rfl

@[simp] theorem attach_extras_original_query (meta : TableMetadata) (cfg : AnalysisConfig)
    (q : Str) (r : AnalysisResult) :
    (attach_extras meta cfg q r).original_query = r.original_query := by
  unfold attach_extras
  split <;> split <;> rfl

@[simp] theorem attach_extras_tables (meta : TableMetadata) (cfg : AnalysisConfig)
    (q : Str) (r : AnalysisResult) :
    (attach_extras meta cfg q r).tables = r.tables := by
  unfold attach_extras
  split <;> split <;> rfl

@[simp] theorem attach_extras_columns (meta : TableMetadata) (cfg : AnalysisConfig)
    (q : Str) (r : AnalysisResult) :
    (attach_extras meta cfg q r).columns = r.columns := by
  unfold attach_extras
  split <;> split <;> rfl

@[simp] theorem attach_extras_has_joins (meta : TableMetadata) (cfg : AnalysisConfig)
    (q : Str) (r : AnalysisResult) :
    (attach_extras meta cfg q r).has_joins = r.has_joins := by
  unfold attach_extras
  split <;> split <;> rfl

@[simp] theorem attach_extras_join_types (meta : TableMetadata) (cfg : AnalysisConfig)
    (q : Str) (r : AnalysisResult) :
    (attach_extras meta cfg q r).join_types = r.join_types := by
  unfold attach_extras
  split <;> split <;> rfl

@[simp] theorem attach_extras_temp_tables (meta : TableMetadata) (cfg : AnalysisConfig)
    (q : Str) (r : AnalysisResult) :
    (attach_extras meta cfg q r).temp_tables = r.temp_tables := by
  unfold attach_extras
  split <;> split <;> rfl

@[simp] theorem attach_extras_operations (meta : TableMetadata) (cfg : AnalysisConfig)
    (q : Str) (r : AnalysisResult) :
    (attach_extras meta cfg q r).operations = r.operations := by
  unfold attach_extras
  split <;> split <;> rfl

@[simp] theorem attach_extras_complexity (meta : TableMetadata) (cfg : AnalysisConfig)
    (q : Str) (r : AnalysisResult) :
    (attach_extras meta cfg q r).complexity_score = r.complexity_score := by
  unfold attach_extras
  split <;> split <;> rfl

@[simp] theorem attach_extras_change_areas (meta : TableMetadata) (cfg : AnalysisConfig)
    (q : Str) (r : AnalysisResult) :
    (attach_extras meta cfg q r).change_areas = r.change_areas := by
  unfold attach_extras
  split <;> split <;> rfl

@[simp] theorem attach_extras_subqueries (meta : TableMetadata) (cfg : AnalysisConfig)
    (q : Str) (r : AnalysisResult) :
    (attach_extras meta cfg q r).subqueries = r.subqueries := by
  unfold attach_extras
  split <;> split <;> rfl

@[simp] theorem attach_extras_functions (meta : TableMetadata) (cfg : AnalysisConfig)
    (q : Str) (r : AnalysisResult) :
    (attach_extras meta cfg q r).functions = r.functions := by
  unfold attach_extras
  split <;> split <;> rfl

@[simp] theorem attach_extras_conditions (meta : TableMetadata) (cfg : AnalysisConfig)
    (q : Str) (r : AnalysisResult) :
    (attach_extras meta cfg q r).conditions = r.conditions := by
  unfold attach_extras
  split <;> split <;> rfl

@[simp] theorem attach_extras_error_message (meta : TableMetadata) (cfg : AnalysisConfig)
    (q : Str) (r : AnalysisResult) :
    (attach_extras meta cfg q r).error_message = r.error_message := by
  unfold attach_extras
  split <;> split <;> rfl

@[simp] theorem ok_result_query_type (meta : TableMetadata) (cfg : AnalysisConfig)
    (q : Str) (ts : List Tok) (id : Option Str) :
    (ok_result meta cfg q ts id).query_type = determine_query_type q := rfl

@[simp] theorem ok_result_original_query (meta : TableMetadata) (cfg : AnalysisConfig)
    (q : Str) (ts : List Tok) (id : Option Str) :
    (ok_result meta cfg q ts id).original_query = pyStrip q := rfl

@[simp] theorem ok_result_tables (meta : TableMetadata) (cfg : AnalysisConfig)
    (q : Str) (ts : List Tok) (id : Option Str) :
    (ok_result meta cfg q ts id).tables = extract_tables ts := rfl

@[simp] theorem ok_result_columns (meta : TableMetadata) (cfg : AnalysisConfig)
    (q : Str) (ts : List Tok) (id : Option Str) :
    (ok_result meta cfg q ts id).columns = extract_columns meta ts := rfl

@[simp] theorem ok_result_has_joins (meta : TableMetadata) (cfg : AnalysisConfig)
    (q : Str) (ts : List Tok) (id : Option Str) :
    (ok_result meta cfg q ts id).has_joins = detect_joins q := rfl

@[simp] theorem ok_result_join_types (meta : TableMetadata) (cfg : AnalysisConfig)
    (q : Str) (ts : List Tok) (id : Option Str) :
    (ok_result meta cfg q ts id).join_types = extract_join_types q := rfl

@[simp] theorem ok_result_temp_tables (meta : TableMetadata) (cfg : AnalysisConfig)
    (q : Str) (ts : List Tok) (id : Option Str) :
    (ok_result meta cfg q ts id).temp_tables =
      (if cfg.include_temp_tables then extract_temp_tables q else []) := rfl

@[simp] theorem ok_result_operations (meta : TableMetadata) (cfg : AnalysisConfig)
    (q : Str) (ts : List Tok) (id : Option Str) :
    (ok_result meta cfg q ts id).operations = extract_operations ts := rfl

@[simp] theorem ok_result_subqueries (meta : TableMetadata) (cfg : AnalysisConfig)
    (q : Str) (ts : List Tok) (id : Option Str) :
    (ok_result meta cfg q ts id).subqueries = count_subqueries ts := rfl

@[simp] theorem ok_result_functions (meta : TableMetadata) (cfg : AnalysisConfig)
    (q : Str) (ts : List Tok) (id : Option Str) :
    (ok_result meta cfg q ts id).functions = extract_functions ts := rfl

@[simp] theorem ok_result_conditions (meta : TableMetadata) (cfg : AnalysisConfig)
    (q : Str) (ts : List Tok) (id : Option Str) :
    (ok_result meta cfg q ts id).conditions = extract_conditions ts := rfl

@[simp] theorem ok_result_error_message (meta : TableMetadata) (cfg : AnalysisConfig)
    (q : Str) (ts : List Tok) (id : Option Str) :
    (ok_result meta cfg q ts id).error_message = none := rfl

theorem ok_result_complexity (meta : TableMetadata) (cfg : AnalysisConfig)
    (q : Str) (ts : List Tok) (id : Option Str) :
    (ok_result meta cfg q ts id).complexity_score =
      calculate_complexity (base_result meta cfg q ts id) := rfl

theorem ok_result_change_areas (meta : TableMetadata) (cfg : AnalysisConfig)
    (q : Str) (ts : List Tok) (id : Option Str) :
    (ok_result meta cfg q ts id).change_areas =
      identify_change_areas meta (scored_result meta cfg q ts id) := rfl

/-- `calculate_complexity` reads only the feature fields, so it takes the
same value on the initial, scored and final records. -/
theorem calculate_complexity_ok (meta : TableMetadata) (cfg : AnalysisConfig)
    (q : Str) (ts : List Tok) (id : Option Str) :
    calculate_complexity (ok_result meta cfg q ts id) =
      calculate_complexity (base_result meta cfg q ts id) := rfl

/-- `identify_change_areas` does not read the `change_areas` field, so the
scored and final records agree. -/
theorem identify_change_areas_ok (meta : TableMetadata) (cfg : AnalysisConfig)
    (q : Str) (ts : List Tok) (id : Option Str) :
    identify_change_areas meta (ok_result meta cfg q ts id) =
      identify_change_areas meta (scored_result meta cfg q ts id) := rfl

/-! Classification of the query-type outcomes. -/

/-- Every value `_determine_query_type` can return. -/
theorem determine_query_type_cases (q : Str) :
    determine_query_type q ∈ crud_keywords ∨
    determine_query_type q = "CTE".toList ∨
    determine_query_type q = "UNKNOWN".toList := by
  unfold determine_query_type
  dsimp only
  split
  · rename_i k h
    exact Or.inl (List.mem_of_find?_eq_some h)
  · split
    · exact Or.inr (Or.inl rfl)
    · exact Or.inr (Or.inr rfl)

/-- `_determine_query_type` never returns the reserved value `EMPTY`. -/
theorem determine_query_type_ne_empty (q : Str) :
    determine_query_type q ≠ "EMPTY".toList := by
  have hcrud : ∀ k ∈ crud_keywords, k ≠ "EMPTY".toList := by decide
  rcases determine_query_type_cases q with h | h | h
  · exact hcrud _ h
  · rw [h]; decide
  · rw [h]; decide

/-! The claims. -/

/-- **C2.**  `analyze` yields `queryType = EMPTY` exactly for empty or
whitespace-only input, and in that case every collection field is empty,
the complexity score and subquery count are `0`, and `changeAreas` is
exactly `["Query is empty or invalid"]`. -/
theorem c2_empty_classification (tokenize : Tokenizer) (meta : TableMetadata)
    (cfg : AnalysisConfig) (q : Str) (id : Option Str) :
    ((analyze_query tokenize meta cfg q id).query_type = "EMPTY".toList ↔
      pyStrip q = []) ∧
    (pyStrip q = [] →
      (analyze_query tokenize meta cfg q id).tables = [] ∧
      (analyze_query tokenize meta cfg q id).columns = [] ∧
      (analyze_query tokenize meta cfg q id).join_types = [] ∧
      (analyze_query tokenize meta cfg q id).temp_tables = [] ∧
      (analyze_query tokenize meta cfg q id).operations = [] ∧
      (analyze_query tokenize meta cfg q id).functions = [] ∧
      (analyze_query tokenize meta cfg q id).conditions = [] ∧
      (analyze_query tokenize meta cfg q id).complexity_score = 0 ∧
      (analyze_query tokenize meta cfg q id).subqueries = 0 ∧
      (analyze_query tokenize meta cfg q id).change_areas =
        ["Query is empty or invalid".toList]) := by
  by_cases hq : pyStrip q = []
  · rw [analyze_eq_empty tokenize meta cfg q id hq]
    exact ⟨⟨fun _ => hq, fun _ => rfl⟩,
      fun _ => ⟨rfl, rfl, rfl, rfl, rfl, rfl, rfl, rfl, rfl, rfl⟩⟩
  · cases ht : tokenize q with
    | error e =>
      rw [analyze_eq_error tokenize meta cfg q id e hq ht]
      exact ⟨⟨fun h => absurd (show "ERROR".toList = "EMPTY".toList from h)
          (by decide), fun h => absurd h hq⟩,
        fun h => absurd h hq⟩
    | ok ts =>
      rw [analyze_eq_ok tokenize meta cfg q id ts hq ht]
      refine ⟨⟨fun h => ?_, fun h => absurd h hq⟩, fun h => absurd h hq⟩
      rw [attach_extras_query_type, ok_result_query_type] at h
      exact absurd h (determine_query_type_ne_empty q)

/-- Witness for C2 at the whitespace-only input `"   "`. -/
theorem c2_empty_classification_witness :
    (analyze_query (fun _ => Except.ok ([] : List Tok)) [] cfgDefault
      ("   ".toList) none).tables = [] :=
  ((c2_empty_classification (fun _ => Except.ok ([] : List Tok)) [] cfgDefault
    ("   ".toList) none).2 (by decide)).1

/-- **C1 (amended).**  When tokenization fails, `analyze` returns (it never
raises) the error record: `queryType = ERROR`, `changeAreas` is the single
message `"Parsing error: <message>"` with the captured message verbatim,
every collection field is empty, `originalQuery` is the input verbatim
(unstripped) — but no `errorMessage` field is produced: the failure message
is carried only inside `changeAreas`. -/
theorem c1_error_encoding (tokenize : Tokenizer) (meta : TableMetadata)
    (cfg : AnalysisConfig) (q : Str) (id : Option Str) (e : Str)
    (hq : pyStrip q ≠ []) (ht : tokenize q = Except.error e) :
    (analyze_query tokenize meta cfg q id).query_type = "ERROR".toList ∧
    (analyze_query tokenize meta cfg q id).change_areas =
      ["Parsing error: ".toList ++ e] ∧
    (analyze_query tokenize meta cfg q id).tables = [] ∧
    (analyze_query tokenize meta cfg q id).columns = [] ∧
    (analyze_query tokenize meta cfg q id).join_types = [] ∧
    (analyze_query tokenize meta cfg q id).temp_tables = [] ∧
    (analyze_query tokenize meta cfg q id).operations = [] ∧
    (analyze_query tokenize meta cfg q id).functions = [] ∧
    (analyze_query tokenize meta cfg q id).conditions = [] ∧
    (analyze_query tokenize meta cfg q id).original_query = q ∧
    (analyze_query tokenize meta cfg q id).error_message = none ∧
    (analyze_query tokenize meta cfg q id).has_joins = false ∧
    (analyze_query tokenize meta cfg q id).complexity_score = 0 ∧
    (analyze_query tokenize meta cfg q id).subqueries = 0 := by
  rw [analyze_eq_error tokenize meta cfg q id e hq ht]
  exact ⟨rfl, rfl, rfl, rfl, rfl, rfl, rfl, rfl, rfl, rfl, rfl, rfl, rfl, rfl⟩

/-- Witness for the amended C1 on a concrete failing tokenizer. -/
theorem c1_error_encoding_witness :
    (analyze_query (fun _ => Except.error ("tokenize failure".toList)) []
      cfgDefault ("DELETE FROM t".toList) none).query_type = "ERROR".toList :=
  (c1_error_encoding (fun _ => Except.error ("tokenize failure".toList)) []
    cfgDefault ("DELETE FROM t".toList) none ("tokenize failure".toList)
    (by decide) rfl).1

/-- **C1 counterexample.**  On a failing tokenization with message `boom`
the result carries no `errorMessage` value at all (the field the claim says
"carries the failure message" is absent — the message appears only in
`changeAreas`). -/
theorem c1_counterexample :
    (analyze_query (fun _ => Except.error ("boom".toList)) [] cfgDefault
      ("SELECT 1".toList) none).query_type = "ERROR".toList ∧
    (analyze_query (fun _ => Except.error ("boom".toList)) [] cfgDefault
      ("SELECT 1".toList) none).change_areas = ["Parsing error: boom".toList] ∧
    (analyze_query (fun _ => Except.error ("boom".toList)) [] cfgDefault
      ("SELECT 1".toList) none).error_message = none :=
  ⟨rfl, rfl, rfl⟩

/-- **C10.**  `originalQuery` is the stripped input on the successful path,
the empty string on the blank path, and the verbatim input only on the
error path. -/
theorem c10_original_query (tokenize : Tokenizer) (meta : TableMetadata)
    (cfg : AnalysisConfig) (q : Str) (id : Option Str) :
    (pyStrip q = [] →
      (analyze_query tokenize meta cfg q id).original_query = []) ∧
    (∀ ts, pyStrip q ≠ [] → tokenize q = Except.ok ts →
      (analyze_query tokenize meta cfg q id).original_query = pyStrip q) ∧
    (∀ e, pyStrip q ≠ [] → tokenize q = Except.error e →
      (analyze_query tokenize meta cfg q id).original_query = q) := by
  refine ⟨fun hq => ?_, fun ts hq ht => ?_, fun e hq ht => ?_⟩
  · rw [analyze_eq_empty tokenize meta cfg q id hq]
    exact rfl
  · rw [analyze_eq_ok tokenize meta cfg q id ts hq ht,
      attach_extras_original_query, ok_result_original_query]
  · rw [analyze_eq_error tokenize meta cfg q id e hq ht]
    exact rfl

/-- Witness for C10: a padded query comes back stripped. -/
theorem c10_original_query_witness :
    (analyze_query (fun _ => Except.ok ([] : List Tok)) [] cfgDefault
      ("  SELECT 1  ".toList) none).original_query =
      pyStrip ("  SELECT 1  ".toList) :=
  (c10_original_query (fun _ => Except.ok ([] : List Tok)) [] cfgDefault
    ("  SELECT 1  ".toList) none).2.1 [] (by decide) rfl

/-- **C5 (code-bug exhibit).**  The cleaned-name validation of the table
extractor is bypassed by Python operator precedence: the trailing
`or len(cleaned_name.split('.')) <= 2` arm is true for every cleaned name
with at most one dot, so a purely numeric candidate (token `[123]`, cleaned
to `123`), a reserved word (token `[SELECT]`, cleaned to `SELECT`) and even
an empty cleaned name (token `[]`) are all added to the table set, although
the claim — and the intent documented by the inline comments — says they
are rejected. -/
theorem c5_validation_bypassed :
    extract_tables
        [⟨.kw, "FROM".toList⟩, ⟨.ws, " ".toList⟩, ⟨.name, "[123]".toList⟩] =
      ["123".toList] ∧
    extract_tables
        [⟨.kw, "FROM".toList⟩, ⟨.ws, " ".toList⟩, ⟨.name, "[SELECT]".toList⟩] =
      ["SELECT".toList] ∧
    extract_tables
        [⟨.kw, "FROM".toList⟩, ⟨.ws, " ".toList⟩, ⟨.name, "[]".toList⟩] =
      [([] : Str)] := by
  decide

/-- **C4 counterexample.**  On `SELECT a FROM t` the complexity score is
not `2`: the column heuristic counts both `a` and `t` (both are shorter
than two characters, so `_is_likely_table_name` rejects them as table
names), giving `1 (base) + 1 (table) + 1 (two columns at one half) = 3`. -/
theorem c4_counterexample :
    (analyze_query (fun _ => Except.ok toksSelectAFromT) [] cfgDefault
      ("SELECT a FROM t".toList) none).complexity_score ≠ 2 := by
  have h : (analyze_query (fun _ => Except.ok toksSelectAFromT) [] cfgDefault
      ("SELECT a FROM t".toList) none).complexity_score = 3 := by
    with_unfolding_all rfl
  rw [h]
  decide

/-- **C4 (amended).**  `analyze("SELECT a FROM t")` yields
`queryType = SELECT`, `tables = {t}`, `hasJoins = false` and
`complexityScore = 3` (base 1, one table, and the two extracted columns
`a` and `t` contributing `⌊2 · 0.5⌋ = 1`). -/
theorem c4_select_a_from_t :
    (analyze_query (fun _ => Except.ok toksSelectAFromT) [] cfgDefault
      ("SELECT a FROM t".toList) none).query_type = "SELECT".toList ∧
    (analyze_query (fun _ => Except.ok toksSelectAFromT) [] cfgDefault
      ("SELECT a FROM t".toList) none).tables = ["t".toList] ∧
    (analyze_query (fun _ => Except.ok toksSelectAFromT) [] cfgDefault
      ("SELECT a FROM t".toList) none).columns = ["a".toList, "t".toList] ∧
    (analyze_query (fun _ => Except.ok toksSelectAFromT) [] cfgDefault
      ("SELECT a FROM t".toList) none).has_joins = false ∧
    (analyze_query (fun _ => Except.ok toksSelectAFromT) [] cfgDefault
      ("SELECT a FROM t".toList) none).complexity_score = 3 := by
  refine ⟨by decide, by decide, by decide, by decide, ?_⟩
  with_unfolding_all rfl

/-- **C8 counterexample.**  On `WITH cte AS (SELECT 1)` the detector does
not extract only the captured CTE name: the `WITH \w+ AS (` pattern is also
in the generic pattern list, so the first token after the match — `SELECT`
— is extracted as a "temporary table" as well. -/
theorem c8_counterexample :
    "SELECT".toList ∈ extract_temp_tables ("WITH cte AS (SELECT 1)".toList) ∧
    extract_temp_tables ("WITH cte AS (SELECT 1)".toList) ≠ ["cte".toList] := by
  decide

/-- **C8 (amended).**  The first-token-after-the-match rule (with `();,`
stripped from BOTH ends, and applied to the `WITH <name> AS (` pattern as
well) governs the generic patterns, the CTE pattern additionally
contributes its captured name, and `includeTempTables = false` forces
`tempTables = []` on every path. -/
theorem c8_temp_tables :
    (∀ (tokenize : Tokenizer) (meta : TableMetadata) (b c : Bool) (q : Str)
      (id : Option Str),
      (analyze_query tokenize meta ⟨false, b, c⟩ q id).temp_tables = []) ∧
    ("tmp".toList ∈ (analyze_query (fun _ => Except.ok []) [] cfgDefault
      ("CREATE TEMP TABLE tmp AS SELECT * FROM x".toList) none).temp_tables) ∧
    ((analyze_query (fun _ => Except.ok []) [] ⟨false, true, true⟩
      ("CREATE TEMP TABLE tmp AS SELECT * FROM x".toList) none).temp_tables = []) ∧
    extract_temp_tables ("SELECT * INTO #t (a)".toList) = ["a".toList] ∧
    extract_temp_tables ("WITH cte AS (SELECT 1)".toList) =
      ["SELECT".toList, "cte".toList] := by
  refine ⟨?_, by decide, by decide, by decide, by decide⟩
  intro tokenize meta b c q id
  by_cases hq : pyStrip q = []
  · rw [analyze_eq_empty tokenize meta ⟨false, b, c⟩ q id hq]
    rfl
  · cases ht : tokenize q with
    | error e =>
      rw [analyze_eq_error tokenize meta ⟨false, b, c⟩ q id e hq ht]
      rfl
    | ok ts =>
      rw [analyze_eq_ok tokenize meta ⟨false, b, c⟩ q id ts hq ht,
        attach_extras_temp_tables, ok_result_temp_tables]
      rfl

/-! Substring characterisation for the join detector. -/

theorem isPrefixOf_iff_exists (p s : Str) :
    p.isPrefixOf s = true ↔ ∃ r, s = p ++ r := by
  induction p generalizing s with
  | nil =>
    simp [List.isPrefixOf]
  | cons a ps ih =>
    cases s with
    | nil =>
      simp [List.isPrefixOf]
    | cons b t =>
      simp only [List.isPrefixOf, Bool.and_eq_true, beq_iff_eq, ih,
        List.cons_append, List.cons.injEq]
      constructor
      · rintro ⟨rfl, r, rfl⟩
        exact ⟨r, rfl, rfl⟩
      · rintro ⟨r, rfl, rfl⟩
        exact ⟨rfl, r, rfl⟩

theorem listContains_iff (s p : Str) :
    listContains s p = true ↔ ∃ l r, s = l ++ p ++ r := by
  induction s with
  | nil =>
    constructor
    · intro h
      have hp : p = [] := by
        simpa [listContains, List.isEmpty_iff] using h
      exact ⟨[], [], by simp [hp]⟩
    · rintro ⟨l, r, h⟩
      rcases List.append_eq_nil.mp (List.append_eq_nil.mp h.symm).1 with ⟨-, hp⟩
      simp [listContains, hp]
  | cons c t ih =>
    simp only [listContains, Bool.or_eq_true, ih, isPrefixOf_iff_exists]
    constructor
    · rintro (⟨r, hr⟩ | ⟨l, r, hr⟩)
      · exact ⟨[], r, by simp [hr]⟩
      · exact ⟨c :: l, r, by simp [hr]⟩
    · rintro ⟨l, r, hr⟩
      cases l with
      | nil =>
        exact Or.inl ⟨r, by simpa using hr⟩
      | cons x xs =>
        rw [List.cons_append, List.cons_append, List.cons.injEq] at hr
        exact Or.inr ⟨xs, r, by simp [hr.2]⟩

/-- **C7 counterexample.**  The query `a LEFT OUTER JOIN b` contains the
phrase `LEFT OUTER JOIN` yet its `joinTypes` does not report `LEFT JOIN`
(the phrase `LEFT JOIN` is not a substring of `LEFT OUTER JOIN`), contrary
to the claim's example. -/
theorem c7_counterexample :
    "LEFT OUTER JOIN".toList ∈
      (analyze_query (fun _ => Except.ok []) [] cfgDefault
        ("a LEFT OUTER JOIN b".toList) none).join_types ∧
    "LEFT JOIN".toList ∉
      (analyze_query (fun _ => Except.ok []) [] cfgDefault
        ("a LEFT OUTER JOIN b".toList) none).join_types := by
  decide

/-- **C7 (amended).**  `hasJoins` holds exactly when some fixed join phrase
occurs as a substring of the uppercased query; `joinTypes` lists exactly
the phrases that occur, each once (no duplicates, membership not
occurrence count); and overlap is reported in the sense that whenever any
phrase occurs the plain `JOIN` phrase is reported too (`LEFT JOIN` is NOT
implied by `LEFT OUTER JOIN`, which is not a superstring of it). -/
theorem c7_join_detection (tokenize : Tokenizer) (meta : TableMetadata)
    (cfg : AnalysisConfig) (q : Str) (id : Option Str) (ts : List Tok)
    (hq : pyStrip q ≠ []) (ht : tokenize q = Except.ok ts) :
    ((analyze_query tokenize meta cfg q id).has_joins = true ↔
      ∃ p ∈ join_keywords, ∃ l r, pyUpper q = l ++ p ++ r) ∧
    (∀ p, p ∈ (analyze_query tokenize meta cfg q id).join_types ↔
      p ∈ join_keywords ∧ ∃ l r, pyUpper q = l ++ p ++ r) ∧
    (analyze_query tokenize meta cfg q id).join_types.Nodup ∧
    ((analyze_query tokenize meta cfg q id).has_joins = true →
      "JOIN".toList ∈ (analyze_query tokenize meta cfg q id).join_types) := by
  rw [analyze_eq_ok tokenize meta cfg q id ts hq ht]
  rw [attach_extras_has_joins, attach_extras_join_types, ok_result_has_joins,
    ok_result_join_types]
  have hmem : ∀ p, p ∈ extract_join_types q ↔
      p ∈ join_keywords ∧ ∃ l r, pyUpper q = l ++ p ++ r := by
    intro p
    unfold extract_join_types
    rw [List.mem_filter]
    exact and_congr_right fun _ => listContains_iff _ _
  refine ⟨?_, hmem, ?_, ?_⟩
  · unfold detect_joins
    rw [List.any_eq_true]
    constructor
    · rintro ⟨p, hp, hc⟩
      exact ⟨p, hp, (listContains_iff _ _).mp hc⟩
    · rintro ⟨p, hp, hc⟩
      exact ⟨p, hp, (listContains_iff _ _).mpr hc⟩
  · exact List.Nodup.filter _ (by decide)
  · intro h
    unfold detect_joins at h
    rw [List.any_eq_true] at h
    obtain ⟨p, hp, hc⟩ := h
    obtain ⟨l, r, hq'⟩ := (listContains_iff _ _).mp hc
    have hsub : ∀ p ∈ join_keywords, ∃ u v, p = u ++ "JOIN".toList ++ v := by
      intro p hp
      simp only [join_keywords, List.map_cons, List.map_nil, List.mem_cons,
        List.not_mem_nil, or_false] at hp
      rcases hp with rfl | rfl | rfl | rfl | rfl | rfl | rfl | rfl | rfl | rfl
      · exact ⟨[], [], rfl⟩
      · exact ⟨"INNER ".toList, [], rfl⟩
      · exact ⟨"LEFT ".toList, [], rfl⟩
      · exact ⟨"RIGHT ".toList, [], rfl⟩
      · exact ⟨"FULL ".toList, [], rfl⟩
      · exact ⟨"CROSS ".toList, [], rfl⟩
      · exact ⟨"NATURAL ".toList, [], rfl⟩
      · exact ⟨"LEFT OUTER ".toList, [], rfl⟩
      · exact ⟨"RIGHT OUTER ".toList, [], rfl⟩
      · exact ⟨"FULL OUTER ".toList, [], rfl⟩
    obtain ⟨u, v, huv⟩ := hsub p hp
    refine (hmem _).mpr ⟨by decide, l ++ u, v ++ r, ?_⟩
    rw [hq', huv]
    simp [List.append_assoc]

/-- Witness for the amended C7 on `x INNER JOIN y`. -/
theorem c7_join_detection_witness :
    (analyze_query (fun _ => Except.ok []) [] cfgDefault
      ("x INNER JOIN y".toList) none).join_types.Nodup :=
  (c7_join_detection (fun _ => Except.ok []) [] cfgDefault
    ("x INNER JOIN y".toList) none [] (by decide) rfl).2.2.1

/-! Characterisation of the subquery counter. -/

theorem prefixDepth_zero (ts : List Tok) : prefixDepth ts 0 = 0 := rfl

theorem prefixDepth_cons_succ (t : Tok) (r : List Tok) (i : ℕ) :
    prefixDepth (t :: r) (i + 1) = depthDelta t + prefixDepth r i := by
  simp [prefixDepth]

theorem select_ne_lparen (t : Tok) (h : t.value = "(".toList) : ¬ IsSelectTok t := by
  rintro ⟨-, hsel⟩
  rw [h] at hsel
  exact absurd hsel (by decide)

theorem select_ne_rparen (t : Tok) (h : t.value = ")".toList) : ¬ IsSelectTok t := by
  rintro ⟨-, hsel⟩
  rw [h] at hsel
  exact absurd hsel (by decide)

theorem subq_foldl (ts : List Tok) : ∀ (d : ℤ) (c : ℕ),
    (ts.foldl subqStep (d, c)).2 =
      c + (List.range ts.length).countP (fun i =>
        decide ( IsSelectTok (ts.getD i ⟨.ws, []⟩)) &&
        decide (0 < d + prefixDepth ts i)) := by
  induction ts with
  | nil =>
    intro d c
    simp
  | cons t r ih =>
    intro d c
    rw [List.foldl_cons, List.length_cons, List.range_succ_eq_map,
      List.countP_cons, List.countP_map]
    have harg : ∀ i : ℕ,
        ((fun i => decide ( IsSelectTok ((t :: r).getD i ⟨.ws, []⟩)) &&
            decide (0 < d + prefixDepth (t :: r) i)) ∘ Nat.succ) i =
          (decide ( IsSelectTok (r.getD i ⟨.ws, []⟩)) &&
            decide (0 < (d + depthDelta t) + prefixDepth r i)) := by
      intro i
      simp only [Function.comp_apply, List.getD_cons_succ, prefixDepth_cons_succ]
      rw [add_assoc]
    rw [funext harg]
    by_cases h1 : t.value = "(".toList
    · have hstep : subqStep (d, c) t = (d + 1, c) := by
        unfold subqStep
        rw [if_pos h1]
      have hdelta : depthDelta t = 1 := by
        unfold depthDelta
        rw [if_pos h1]
      have hsel : decide ( IsSelectTok ((t :: r).getD 0 ⟨.ws, []⟩)) = false :=
        decide_eq_false (select_ne_lparen t h1)
      rw [hstep, ih (d + 1) c, hdelta, prefixDepth_zero, hsel]
      simp
    · by_cases h2 : t.value = ")".toList
      · have hstep : subqStep (d, c) t = (d - 1, c) := by
          unfold subqStep
          rw [if_neg h1, if_pos h2]
        have hdelta : depthDelta t = -1 := by
          unfold depthDelta
          rw [if_neg h1, if_pos h2]
        have hsel : decide ( IsSelectTok ((t :: r).getD 0 ⟨.ws, []⟩)) = false :=
          decide_eq_false (select_ne_rparen t h2)
        rw [hstep, ih (d - 1) c, hdelta, prefixDepth_zero, hsel]
        simp [sub_eq_add_neg]
      · by_cases h3 : t.ttype = .kw ∧ pyUpper t.value = "SELECT".toList ∧ 0 < d
        · have hstep : subqStep (d, c) t = (d, c + 1) := by
            unfold subqStep
            rw [if_neg h1, if_neg h2, if_pos h3]
          have hdelta : depthDelta t = 0 := by
            unfold depthDelta
            rw [if_neg h1, if_neg h2]
          have hsel : decide ( IsSelectTok ((t :: r).getD 0 ⟨.ws, []⟩)) = true := by
            exact decide_eq_true ⟨h3.1, h3.2.1⟩
          have hd : decide (0 < d + prefixDepth (t :: r) 0) = true := by
            rw [prefixDepth_zero, add_zero]
            exact decide_eq_true h3.2.2
          rw [hstep, ih d (c + 1), hdelta, hsel, hd]
          simp
          omega
        · have hstep : subqStep (d, c) t = (d, c) := by
            unfold subqStep
            rw [if_neg h1, if_neg h2, if_neg h3]
          have hdelta : depthDelta t = 0 := by
            unfold depthDelta
            rw [if_neg h1, if_neg h2]
          have hz : (decide ( IsSelectTok ((t :: r).getD 0 ⟨.ws, []⟩)) &&
              decide (0 < d + prefixDepth (t :: r) 0)) = false := by
            rw [prefixDepth_zero, add_zero, List.getD_cons_zero]
            by_cases hsel : IsSelectTok t
            · have hd : ¬ 0 < d := fun hd => h3 ⟨hsel.1, hsel.2, hd⟩
              rw [decide_eq_false hd, Bool.and_false]
            · rw [decide_eq_false hsel, Bool.false_and]
          rw [hstep, ih d c, hdelta, hz]
          simp

/-- **C9.**  The subquery count equals the number of `SELECT` keyword
tokens encountered at strictly positive parenthesis depth; unbalanced
parentheses get no special handling (the depth is an integer that may go
negative, as the concrete unbalanced example shows), and the count is a
non-negative integer. -/
theorem c9_subquery_count (ts : List Tok) :
    count_subqueries ts = spec_subquery_count ts ∧
    0 ≤ (count_subqueries ts : ℤ) ∧
    count_subqueries
      [⟨.punct, ")".toList⟩, ⟨.punct, "(".toList⟩, ⟨.punct, "(".toList⟩,
       ⟨.kw, "SELECT".toList⟩] = 1 := by
  refine ⟨?_, Int.natCast_nonneg _, by decide⟩
  unfold count_subqueries spec_subquery_count
  rw [subq_foldl ts 0 0]
  simp

/-! Lemmas for the complexity formula. -/

/-- On a non-negative rational, Python truncation agrees with the floor. -/
theorem pyTrunc_eq_floor (q : ℚ) (h : 0 ≤ q) : pyTrunc q = ⌊q⌋ := by
  unfold pyTrunc
  rw [Rat.floor_def]
  exact Int.tdiv_eq_ediv (Rat.num_nonneg.mpr h) (Int.natCast_nonneg _)

theorem floor_nat_half (c : ℕ) : ⌊(c : ℚ) / 2⌋ = ((c / 2 : ℕ) : ℤ) := by
  have h : ((c : ℚ)) / 2 = ((c : ℤ) : ℚ) / ((2 : ℕ) : ℚ) := by
    push_cast
    ring
  rw [h, Rat.floor_intCast_div_natCast]
  omega

theorem floor_int_add_nat_half (n : ℤ) (c : ℕ) :
    ⌊(n : ℚ) + (c : ℚ) / 2⌋ = n + ((c / 2 : ℕ) : ℤ) := by
  rw [Int.floor_int_add, floor_nat_half]

/-- `calculate_complexity` ignores the optional sub-record fields. -/
theorem calculate_complexity_attach (meta : TableMetadata) (cfg : AnalysisConfig)
    (q : Str) (r : AnalysisResult) :
    calculate_complexity (attach_extras meta cfg q r) = calculate_complexity r := by
  unfold calculate_complexity
  rw [attach_extras_query_type, attach_extras_tables, attach_extras_columns,
    attach_extras_join_types, attach_extras_temp_tables, attach_extras_subqueries,
    attach_extras_functions, attach_extras_conditions]

/-- The scorer, in closed form: the weighted sum with the half-point column
term, truncated exactly once at the end (equivalently: the integer part of
the sum, and in purely integer terms the columns contribute
`|columns| / 2` rounded down). -/
theorem calculate_complexity_spec (r : AnalysisResult) :
    calculate_complexity r =
      ⌊(baseScore r.query_type : ℚ) + 1 * r.tables.length
        + (1 / 2) * r.columns.length + 2 * r.join_types.length
        + 3 * r.temp_tables.length + 4 * (r.subqueries : ℚ)
        + 1 * r.functions.length + 1 * r.conditions.length⌋ ∧
    calculate_complexity r =
      ((baseScore r.query_type + r.tables.length + 2 * r.join_types.length
        + 3 * r.temp_tables.length + 4 * r.subqueries + r.functions.length
        + r.conditions.length + r.columns.length / 2 : ℕ) : ℤ) := by
  have hbase :
      (if r.query_type = "SELECT".toList then (1 : ℚ)
       else if r.query_type ∈ (["INSERT", "UPDATE", "DELETE"].map String.toList) then 2
       else if r.query_type ∈ (["CREATE", "ALTER", "DROP"].map String.toList) then 3
       else 0) = ((baseScore r.query_type : ℕ) : ℚ) := by
    unfold baseScore
    split_ifs <;> norm_num
  have hcalc : calculate_complexity r =
      pyTrunc (((baseScore r.query_type : ℕ) : ℚ) + r.tables.length
        + (r.columns.length : ℚ) * (1 / 2) + r.join_types.length * 2
        + r.temp_tables.length * 3 + (r.subqueries : ℚ) * 4
        + r.functions.length + r.conditions.length) := by
    unfold calculate_complexity
    rw [hbase]
  have hpos : (0 : ℚ) ≤ ((baseScore r.query_type : ℕ) : ℚ) + r.tables.length
      + (r.columns.length : ℚ) * (1 / 2) + r.join_types.length * 2
      + r.temp_tables.length * 3 + (r.subqueries : ℚ) * 4
      + r.functions.length + r.conditions.length := by
    positivity
  have hsum :
      ((baseScore r.query_type : ℕ) : ℚ) + r.tables.length
        + (r.columns.length : ℚ) * (1 / 2) + r.join_types.length * 2
        + r.temp_tables.length * 3 + (r.subqueries : ℚ) * 4
        + r.functions.length + r.conditions.length =
      (((baseScore r.query_type + r.tables.length + 2 * r.join_types.length
          + 3 * r.temp_tables.length + 4 * r.subqueries + r.functions.length
          + r.conditions.length : ℕ) : ℤ) : ℚ) + (r.columns.length : ℚ) / 2 := by
    push_cast
    ring
  constructor
  · rw [hcalc, pyTrunc_eq_floor _ hpos]
    congr 1
    ring
  · rw [hcalc, pyTrunc_eq_floor _ hpos, hsum, floor_int_add_nat_half]
    push_cast
    omega

/-- **C3.**  The complexity score of every successfully analyzed non-empty
query is the weighted sum
`base + 1·|tables| + 0.5·|columns| + 2·|joinTypes| + 3·|tempTables| +
4·subqueries + 1·|functions| + 1·|conditions|`, accumulated exactly and
truncated to an integer once at the end (so the columns contribute
`⌊|columns|/2⌋`: one column alone adds nothing, two add one), with base 1
for SELECT, 2 for INSERT/UPDATE/DELETE, 3 for CREATE/ALTER/DROP and 0
otherwise. -/
theorem c3_complexity (tokenize : Tokenizer) (meta : TableMetadata)
    (cfg : AnalysisConfig) (q : Str) (id : Option Str) (ts : List Tok)
    (hq : pyStrip q ≠ []) (ht : tokenize q = Except.ok ts) :
    (analyze_query tokenize meta cfg q id).complexity_score =
      ⌊(baseScore (analyze_query tokenize meta cfg q id).query_type : ℚ)
        + 1 * (analyze_query tokenize meta cfg q id).tables.length
        + (1 / 2) * (analyze_query tokenize meta cfg q id).columns.length
        + 2 * (analyze_query tokenize meta cfg q id).join_types.length
        + 3 * (analyze_query tokenize meta cfg q id).temp_tables.length
        + 4 * ((analyze_query tokenize meta cfg q id).subqueries : ℚ)
        + 1 * (analyze_query tokenize meta cfg q id).functions.length
        + 1 * (analyze_query tokenize meta cfg q id).conditions.length⌋ ∧
    (analyze_query tokenize meta cfg q id).complexity_score =
      ((baseScore (analyze_query tokenize meta cfg q id).query_type
        + (analyze_query tokenize meta cfg q id).tables.length
        + 2 * (analyze_query tokenize meta cfg q id).join_types.length
        + 3 * (analyze_query tokenize meta cfg q id).temp_tables.length
        + 4 * (analyze_query tokenize meta cfg q id).subqueries
        + (analyze_query tokenize meta cfg q id).functions.length
        + (analyze_query tokenize meta cfg q id).conditions.length
        + (analyze_query tokenize meta cfg q id).columns.length / 2 : ℕ) : ℤ) := by
  have hfield : (analyze_query tokenize meta cfg q id).complexity_score =
      calculate_complexity (analyze_query tokenize meta cfg q id) := by
    rw [analyze_eq_ok tokenize meta cfg q id ts hq ht, attach_extras_complexity,
      ok_result_complexity, calculate_complexity_attach, calculate_complexity_ok]
  rw [hfield]
  exact calculate_complexity_spec (analyze_query tokenize meta cfg q id)

/-- Witness for C3 on a concrete query with one column term. -/
theorem c3_complexity_witness :
    (analyze_query (fun _ => Except.ok toksSelectAFromT) [] cfgDefault
        ("SELECT a FROM t".toList) none).complexity_score =
      ((baseScore (analyze_query (fun _ => Except.ok toksSelectAFromT) []
          cfgDefault ("SELECT a FROM t".toList) none).query_type
        + (analyze_query (fun _ => Except.ok toksSelectAFromT) [] cfgDefault
            ("SELECT a FROM t".toList) none).tables.length
        + 2 * (analyze_query (fun _ => Except.ok toksSelectAFromT) [] cfgDefault
            ("SELECT a FROM t".toList) none).join_types.length
        + 3 * (analyze_query (fun _ => Except.ok toksSelectAFromT) [] cfgDefault
            ("SELECT a FROM t".toList) none).temp_tables.length
        + 4 * (analyze_query (fun _ => Except.ok toksSelectAFromT) [] cfgDefault
            ("SELECT a FROM t".toList) none).subqueries
        + (analyze_query (fun _ => Except.ok toksSelectAFromT) [] cfgDefault
            ("SELECT a FROM t".toList) none).functions.length
        + (analyze_query (fun _ => Except.ok toksSelectAFromT) [] cfgDefault
            ("SELECT a FROM t".toList) none).conditions.length
        + (analyze_query (fun _ => Except.ok toksSelectAFromT) [] cfgDefault
            ("SELECT a FROM t".toList) none).columns.length / 2 : ℕ) : ℤ) :=
  (c3_complexity (fun _ => Except.ok toksSelectAFromT) [] cfgDefault
    ("SELECT a FROM t".toList) none toksSelectAFromT (by decide) rfl).2

/-! Lemmas for the diagnostics generator. -/

theorem identify_change_areas_ne_nil (meta : TableMetadata) (r : AnalysisResult) :
    identify_change_areas meta r ≠ [] := by
  unfold identify_change_areas
  split
  · exact List.cons_ne_nil _ _
  · next h => exact h

theorem change_area_rules_many (meta : TableMetadata) (r : AnalysisResult)
    (h5 : 5 < r.tables.length) :
    msgManyTables ∈ change_area_rules meta r := by
  unfold change_area_rules
  rw [if_pos h5]
  simp

theorem identify_change_areas_many (meta : TableMetadata) (r : AnalysisResult)
    (h5 : 5 < r.tables.length) :
    msgManyTables ∈ identify_change_areas meta r := by
  unfold identify_change_areas
  have hmem := change_area_rules_many meta r h5
  rw [if_neg (fun hnil => by rw [hnil] at hmem; exact List.not_mem_nil _ hmem)]
  exact hmem

theorem identify_change_areas_sentinel (meta : TableMetadata) (r : AnalysisResult)
    (h1 : ¬ 5 < r.tables.length) (h2 : ¬ 3 < r.join_types.length)
    (h3 : ¬ 2 < r.subqueries) (h4 : ¬ 20 < r.complexity_score)
    (h5 : r.temp_tables = [])
    (h6 : meta = [] ∨ ∀ tb ∈ r.tables, (meta.map Prod.fst).contains tb = true) :
    identify_change_areas meta r = [msgNoIssues] := by
  have hmiss : (if meta ≠ [] then
      (r.tables.filter fun tb => !((meta.map Prod.fst).contains tb)).map msgMissing
    else []) = [] := by
    rcases h6 with hm | hall
    · rw [if_neg (fun hne => hne hm)]
    · split
      · have hfil : (r.tables.filter fun tb => !((meta.map Prod.fst).contains tb)) = [] := by
          rw [List.filter_eq_nil_iff]
          intro tb htb
          rw [hall tb htb]
          decide
        rw [hfil]
        rfl
      · rfl
  have hrules : change_area_rules meta r = [] := by
    unfold change_area_rules
    rw [if_neg h1, if_neg h2, if_neg h3, if_neg h4, if_neg (fun hne => hne h5),
      hmiss]
    rfl
  unfold identify_change_areas
  rw [if_pos hrules]

/-- `change_area_rules` ignores the optional sub-record fields. -/
theorem change_area_rules_attach (meta meta2 : TableMetadata)
    (cfg : AnalysisConfig) (q : Str) (r : AnalysisResult) :
    change_area_rules meta (attach_extras meta2 cfg q r) =
      change_area_rules meta r := by
  unfold change_area_rules
  rw [attach_extras_tables, attach_extras_join_types, attach_extras_subqueries,
    attach_extras_complexity, attach_extras_temp_tables]

/-- `identify_change_areas` ignores the optional sub-record fields. -/
theorem identify_change_areas_attach (meta meta2 : TableMetadata)
    (cfg : AnalysisConfig) (q : Str) (r : AnalysisResult) :
    identify_change_areas meta (attach_extras meta2 cfg q r) =
      identify_change_areas meta r := by
  unfold identify_change_areas
  rw [change_area_rules_attach]

/-- **C6.**  For every successfully analyzed non-empty query the change
areas are exactly the fixed rules of `identify_change_areas`, evaluated
independently on the result's own feature fields and emitted in
declaration order (then missing-table messages in table order); in
particular more than five tables always contributes the many-tables
message, the list is never empty, and it is exactly the sentinel
`"No obvious issues detected"` when no rule fired. -/
theorem c6_change_areas (tokenize : Tokenizer) (meta : TableMetadata)
    (cfg : AnalysisConfig) (q : Str) (id : Option Str) (ts : List Tok)
    (hq : pyStrip q ≠ []) (ht : tokenize q = Except.ok ts) :
    ((analyze_query tokenize meta cfg q id).change_areas =
      identify_change_areas meta (analyze_query tokenize meta cfg q id)) ∧
    (analyze_query tokenize meta cfg q id).change_areas ≠ [] ∧
    (5 < (analyze_query tokenize meta cfg q id).tables.length →
      msgManyTables ∈ (analyze_query tokenize meta cfg q id).change_areas) ∧
    (¬ 5 < (analyze_query tokenize meta cfg q id).tables.length →
     ¬ 3 < (analyze_query tokenize meta cfg q id).join_types.length →
     ¬ 2 < (analyze_query tokenize meta cfg q id).subqueries →
     ¬ 20 < (analyze_query tokenize meta cfg q id).complexity_score →
     (analyze_query tokenize meta cfg q id).temp_tables = [] →
     (meta = [] ∨ ∀ tb ∈ (analyze_query tokenize meta cfg q id).tables,
        (meta.map Prod.fst).contains tb = true) →
     (analyze_query tokenize meta cfg q id).change_areas = [msgNoIssues]) := by
  have hca : (analyze_query tokenize meta cfg q id).change_areas =
      identify_change_areas meta (analyze_query tokenize meta cfg q id) := by
    rw [analyze_eq_ok tokenize meta cfg q id ts hq ht, attach_extras_change_areas,
      ok_result_change_areas, identify_change_areas_attach,
      identify_change_areas_ok]
  refine ⟨hca, ?_, ?_, ?_⟩
  · rw [hca]
    exact identify_change_areas_ne_nil meta _
  · intro h5
    rw [hca]
    exact identify_change_areas_many meta _ h5
  · intro h1 h2 h3 h4 h5 h6
    rw [hca]
    exact identify_change_areas_sentinel meta _ h1 h2 h3 h4 h5 h6

/-- Witness for C6: the change areas of a concrete analyzed query are
non-empty. -/
theorem c6_change_areas_witness :
    (analyze_query (fun _ => Except.ok ([] : List Tok)) [] cfgDefault
      ("SELECT 1".toList) none).change_areas ≠ [] :=
  (c6_change_areas (fun _ => Except.ok ([] : List Tok)) [] cfgDefault
    ("SELECT 1".toList) none [] (by decide) rfl).2.1

end SQLCheck
